import Mathlib

/-!
# Verification of the example-project weather service

Shallow embedding of the Go weather service (packages `weather`,
`httpclient`/`api`) and proofs about it.  Temperatures are modelled as
rationals (the observation temperature comes from a JSON number, which is
always finite); query-parameter floats are modelled by `FP`, which adds the
NaN value that `strconv.ParseFloat` can produce (a comparison involving NaN
is false).  The three NOAA upstream calls are modelled by a `MockUpstream`
record of responses, and `GetWeatherFromNOAA` additionally returns the list
of upstream calls it issued, so that "call never made" properties can be
stated.
-/

set_option autoImplicit false

/-- The characters of the Go string literal appended after the formatted
temperature in `weather.go` (`strconv.FormatFloat(...) + "Â°F"`).  The source
bytes are `C3 82 C2 B0 46`: the two characters U+00C2 and U+00B0 followed by
`F` (a double-encoded degree sign), not the single degree sign U+00B0. -/
def degreeSuffix : String := "Â°F"

/-- `weather.determineStatus`: "hot" if tempF > 75, "cold" if tempF < 50,
"moderate" otherwise. -/
def determineStatus (tempF : ℚ) : String :=
  if tempF > 75 then "hot"
  else if tempF < 50 then "cold"
  else "moderate"

/-- The Celsius→Fahrenheit conversion in `GetWeatherFromNOAA`:
`tempF := (tempC * 9.0 / 5.0) + 32.0`. -/
def toFahrenheit (tempC : ℚ) : ℚ :=
  tempC * 9 / 5 + 32

/-- Fixed-point rendering with one decimal digit, modelling
`strconv.FormatFloat(tempF, 'f', 1, 64)`: sign, integer part, `.`, one
fractional digit (the value rounded to the nearest tenth). -/
def formatFixed1 (q : ℚ) : String :=
  let neg : Bool := q < 0
  let a : ℚ := if neg then -q else q
  let n : ℕ := (⌊a * 10 + 1 / 2⌋).toNat
  (if neg then "-" else "") ++ toString (n / 10) ++ "." ++ toString (n % 10)

/-- `properties` of the NOAA points response (`pointsResponse`). -/
structure PointsProps where
  gridId : String
  observationStations : String
deriving DecidableEq

/-- One station feature of the stations response (`stationFeature`). -/
structure StationFeature where
  stationIdentifier : String
deriving DecidableEq

/-- `properties` of the NOAA latest-observation response
(`observationResponse`); the temperature value is a nullable float
(`*float64` in Go), hence an `Option`. -/
structure ObservationProps where
  temperatureValue : Option ℚ
  unitCode : String
deriving DecidableEq

/-- The three upstream HTTP requests `GetWeatherFromNOAA` can issue, in
order: the points lookup, the stations lookup, the latest observation. -/
inductive UpstreamCall where
  | points
  | stations
  | observation
deriving DecidableEq

/-- A mocked upstream chain: what each of the three NOAA endpoints answers.
`none` models a transport failure or an undecodable body (both abort the
chain with a wrapped error in the Go code). -/
structure MockUpstream where
  pointsResp : Option PointsProps
  stationsResp : Option (List StationFeature)
  observationResp : Option ObservationProps
deriving DecidableEq

/-- The distinct error outcomes of `GetWeatherFromNOAA`. -/
inductive WeatherError where
  /-- transport failure or decode failure at the given step -/
  | upstreamOrDecode (step : UpstreamCall)
  /-- `"no observation stations available"` -/
  | noStationsAvailable
  /-- `"temperature data not available from NOAA observations"` -/
  | temperatureUnavailable
deriving DecidableEq

/-- `weather.GetWeatherFromNOAA`, run against a mocked upstream chain.
Returns the (status, formatted temperature) pair or the first error, paired
with the list of upstream calls actually issued.  Mirrors the Go control
flow: points lookup, stations lookup, empty-list check, first station,
observation lookup, null-temperature check, conversion, classification,
formatting. -/
def GetWeatherFromNOAA (u : MockUpstream) :
    Except WeatherError (String × String) × List UpstreamCall :=
  match u.pointsResp with
  | none => (.error (.upstreamOrDecode .points), [.points])
  | some _p =>
    match u.stationsResp with
    | none => (.error (.upstreamOrDecode .stations), [.points, .stations])
    | some feats =>
      if feats.isEmpty then
        (.error .noStationsAvailable, [.points, .stations])
      else
        match u.observationResp with
        | none =>
          (.error (.upstreamOrDecode .observation),
            [.points, .stations, .observation])
        | some obs =>
          match obs.temperatureValue with
          | none =>
            (.error .temperatureUnavailable,
              [.points, .stations, .observation])
          | some tempC =>
            let tempF := toFahrenheit tempC
            ((.ok (determineStatus tempF, formatFixed1 tempF ++ degreeSuffix)),
              [.points, .stations, .observation])

/-- The mocked upstream chain of the spec's end-to-end example: gridId
`"EAX"`, exactly one station `"KIXD"`, latest-observation temperature
22.0 °C. -/
def exampleChain : MockUpstream :=
  ⟨some ⟨"EAX", "https://api.weather.gov/gridpoints/EAX/stations"⟩,
   some [⟨"KIXD"⟩],
   some ⟨some 22, "wmoUnit:degC"⟩⟩

/-- A query-parameter float as produced by `strconv.ParseFloat`: either NaN
or a finite value (modelled as a rational). -/
inductive FP where
  | nan : FP
  | val (q : ℚ) : FP
deriving DecidableEq

/-- The `<` comparison on float values: false whenever either side is NaN,
as in IEEE-754 (and hence in Go's `<` on float64). -/
def FP.lt : FP → FP → Bool
  | .val a, .val b => decide (a < b)
  | _, _ => false

/-- ASCII lower-casing of one character (Go's `strconv` lower-cases before
matching the special values). -/
def lowerChar (c : Char) : Char :=
  if 'A' ≤ c ∧ c ≤ 'Z' then Char.ofNat (c.toNat + 32) else c

/-- decimal digit test -/
def isDigitChar (c : Char) : Bool := '0' ≤ c && c ≤ '9'

/-- value of a digit string -/
def digitsVal (cs : List Char) : ℕ :=
  cs.foldl (fun a c => 10 * a + (c.toNat - '0'.toNat)) 0

/-- Decimal-number parsing: digits with an optional fractional part, at
least one digit in total.  Used by `parseFloat` after sign handling. -/
def parseDec (cs : List Char) : Option ℚ :=
  let ip := cs.takeWhile isDigitChar
  let rest := cs.dropWhile isDigitChar
  match rest with
  | [] => if ip.isEmpty then none else some (digitsVal ip : ℚ)
  | '.' :: fp =>
      if fp.all isDigitChar && !(ip.isEmpty && fp.isEmpty) then
        some ((digitsVal ip : ℚ) + (digitsVal fp : ℚ) / 10 ^ fp.length)
      else none
  | _ => none

/-- Model of Go's `strconv.ParseFloat` restricted to the input forms the
handler claims exercise: the special string `"NaN"` (case-insensitive, which
ParseFloat accepts and maps to the NaN value), and an optional sign followed
by decimal digits with an optional fractional part.  Exponents and infinity
strings, which no claim mentions, are left out; the empty string is rejected
as in Go. -/
def parseFloat (s : String) : Option FP :=
  if s.data.map lowerChar = "nan".data then some .nan
  else
    match s.data with
    | '-' :: r => (parseDec r).map (fun q => FP.val (-q))
    | '+' :: r => (parseDec r).map FP.val
    | r => (parseDec r).map FP.val

/-- An incoming request to the `/weather` endpoint: the HTTP method and the
two query parameters.  `r.URL.Query().Get` returns `""` for an absent
parameter, so a missing parameter is modelled by the empty string, exactly
as the Go handler observes it. -/
structure Request where
  method : String
  latParam : String
  lonParam : String
deriving DecidableEq

/-- What `api.WeatherHandler` writes back: an `http.Error` with a status
code and a plain-text body, or the 200 JSON payload fields
(`status`, `temp`). -/
inductive HandlerResult where
  | err (code : ℕ) (body : String)
  | success (status temp : String)
deriving DecidableEq

instance {ε α : Type} [DecidableEq ε] [DecidableEq α] :
    DecidableEq (Except ε α) := fun
  | .error a, .error b =>
    if h : a = b then .isTrue (by rw [h])
    else .isFalse (fun hc => h (Except.error.inj hc))
  | .error _, .ok _ => .isFalse Except.noConfusion
  | .ok _, .error _ => .isFalse Except.noConfusion
  | .ok a, .ok b =>
    if h : a = b then .isTrue (by rw [h])
    else .isFalse (fun hc => h (Except.ok.inj hc))

/-- The validation prefix of `api.WeatherHandler`, in source order: method
check, missing-parameter check, latitude parse, longitude parse, latitude
range check (`latitude < -90 || latitude > 90`), longitude range check.
Returns the early error response, or the coordinates handed to the
orchestrator. -/
def validateRequest (r : Request) : Except HandlerResult (FP × FP) :=
  if r.method ≠ "GET" then .error (.err 405 "Method not allowed")
  else if r.latParam = "" ∨ r.lonParam = "" then
    .error (.err 400 "latitude and longitude query parameters are required")
  else
    match parseFloat r.latParam with
    | none => .error (.err 400 "invalid latitude parameter")
    | some latitude =>
      match parseFloat r.lonParam with
      | none => .error (.err 400 "invalid longitude parameter")
      | some longitude =>
        if FP.lt latitude (.val (-90)) || FP.lt (.val 90) latitude then
          .error (.err 400 "latitude must be between -90 and 90")
        else if FP.lt longitude (.val (-180)) || FP.lt (.val 180) longitude then
          .error (.err 400 "longitude must be between -180 and 180")
        else .ok (latitude, longitude)

/-- `api.WeatherHandler` end to end against a mocked upstream chain: run the
validation prefix; on success invoke `GetWeatherFromNOAA` (any orchestrator
error becomes the generic 500 response).  The second component is the list
of upstream calls issued — empty exactly when validation responded before
any upstream call. -/
def WeatherHandler (r : Request) (u : MockUpstream) :
    HandlerResult × List UpstreamCall :=
  match validateRequest r with
  | .error e => (e, [])
  | .ok _coords =>
    match GetWeatherFromNOAA u with
    | (.error _, calls) => (.err 500 "Failed to fetch weather data", calls)
    | (.ok (st, tp), calls) => (.success st tp, calls)

/-! ## Helper lemmas -/

/-- At 22 °C the Fahrenheit value 71.6 formats as "71.6". -/
theorem format_at_22 : formatFixed1 (toFahrenheit 22) = "71.6" := by
  norm_num [formatFixed1, toFahrenheit]
  rfl

/-- At 22 °C (71.6 °F) the classification is "moderate". -/
theorem status_at_22 : determineStatus (toFahrenheit 22) = "moderate" := by
  norm_num [determineStatus, toFahrenheit]

/-- Evaluation of the end-to-end example chain. -/
theorem exampleChain_result :
    (GetWeatherFromNOAA exampleChain).1 = .ok ("moderate", "71.6Â°F") := by
  show Except.ok
    (determineStatus (toFahrenheit 22),
      formatFixed1 (toFahrenheit 22) ++ degreeSuffix) = _
  rw [format_at_22, status_at_22]
  rfl

/-- `determineStatus` only ever returns one of the three status strings. -/
theorem determineStatus_cases (t : ℚ) :
    determineStatus t = "hot" ∨ determineStatus t = "cold" ∨
      determineStatus t = "moderate" := by
  unfold determineStatus
  split_ifs <;> simp

/-- The empty string is not a float. -/
theorem parseFloat_empty : parseFloat "" = none := by decide

/-- A string that parses as a float is not the empty string. -/
theorem parseFloat_ne_empty {s : String} {f : FP}
    (h : parseFloat s = some f) : ¬ s = "" := by
  intro he
  rw [he, parseFloat_empty] at h
  exact Option.noConfusion h

/-! ## Claims -/

/-- C1: for every temperature tempF, `determineStatus` returns exactly
"hot" when tempF > 75, "cold" when tempF < 50, and "moderate" when
50 ≤ tempF ≤ 75; in particular 75.0 and 50.0 classify as "moderate",
75.1 as "hot", and 49.9 as "cold". -/
theorem claim_C1 (tempF : ℚ) :
    (determineStatus tempF = "hot" ↔ 75 < tempF) ∧
    (determineStatus tempF = "cold" ↔ tempF < 50) ∧
    (determineStatus tempF = "moderate" ↔ 50 ≤ tempF ∧ tempF ≤ 75) ∧
    determineStatus 75 = "moderate" ∧
    determineStatus 50 = "moderate" ∧
    determineStatus (751 / 10) = "hot" ∧
    determineStatus (499 / 10) = "cold" := by
  refine ⟨?_, ?_, ?_, ?_, ?_, ?_, ?_⟩
  · unfold determineStatus
    split_ifs with h1 h2
    · exact iff_of_true rfl h1
    · exact iff_of_false (by decide) (by linarith)
    · exact iff_of_false (by decide) h1
  · unfold determineStatus
    split_ifs with h1 h2
    · exact iff_of_false (by decide) (by linarith)
    · exact iff_of_true rfl h2
    · exact iff_of_false (by decide) h2
  · unfold determineStatus
    split_ifs with h1 h2
    · exact iff_of_false (by decide) (fun hc => by linarith [hc.2])
    · exact iff_of_false (by decide) (fun hc => by linarith [hc.1])
    · exact iff_of_true rfl ⟨by linarith, by linarith⟩
  · norm_num [determineStatus]
  · norm_num [determineStatus]
  · norm_num [determineStatus]
  · norm_num [determineStatus]

/-- C2 counterexample: on the mocked chain (gridId "EAX", one station
"KIXD", 22.0 °C) the fetch does NOT return status "hot" with temperature
"71.6°F" — 71.6 °F is not above 75, and the code's degree sign is the
double-encoded "Â°". -/
theorem claim_C2_counterexample :
    (GetWeatherFromNOAA exampleChain).1 ≠ .ok ("hot", "71.6°F") := by
  rw [exampleChain_result]
  decide

/-- C2 (amended): with the mocked upstream chain returning gridId "EAX",
exactly one station "KIXD", and a latest-observation temperature of 22.0 °C,
the weather fetch succeeds with status "moderate" (71.6 °F is within the
50–75 band, not above 75) and formatted temperature "71.6Â°F" (the source's
double-encoded degree sign). -/
theorem claim_C2 :
    (GetWeatherFromNOAA exampleChain).1 = .ok ("moderate", "71.6Â°F") :=
  exampleChain_result

/-- C3: for every Celsius temperature tempC, the Fahrenheit value computed
by the orchestrator is tempC * 9/5 + 32; in particular 0 °C gives 32.0 °F
and 100 °C gives 212.0 °F. -/
theorem claim_C3 :
    (∀ tempC : ℚ, toFahrenheit tempC = tempC * 9 / 5 + 32) ∧
    toFahrenheit 0 = 32 ∧ toFahrenheit 100 = 212 :=
  ⟨fun _ => rfl, by norm_num [toFahrenheit], by norm_num [toFahrenheit]⟩

/-- C4: whenever the weather fetch succeeds, the returned status is exactly
one of "hot", "cold", "moderate" — never empty or any other value. -/
theorem claim_C4 (u : MockUpstream) (st tp : String)
    (h : (GetWeatherFromNOAA u).1 = .ok (st, tp)) :
    st = "hot" ∨ st = "cold" ∨ st = "moderate" := by
  obtain ⟨p, s, o⟩ := u
  unfold GetWeatherFromNOAA at h
  repeat' split at h
  all_goals first
    | exact Except.noConfusion h
    | · injection h with h'
        injection h' with h1 h2
        rw [← h1]
        exact determineStatus_cases _

/-- C4 witness: a successful fetch (10 °C, i.e. 50 °F) whose status the
theorem pins to the three-element set. -/
theorem claim_C4_witness :
    "moderate" = "hot" ∨ "moderate" = "cold" ∨ "moderate" = "moderate" := by
  refine claim_C4 ⟨some ⟨"EAX", "u"⟩, some [⟨"KIXD"⟩], some ⟨some 10, "wmoUnit:degC"⟩⟩
    "moderate" (formatFixed1 (toFahrenheit 10) ++ degreeSuffix) ?_
  show Except.ok (determineStatus (toFahrenheit 10), _) = _
  have hst : determineStatus (toFahrenheit 10) = "moderate" := by
    norm_num [determineStatus, toFahrenheit]
  rw [hst]

/-- C5 (code bug): the formatted temperature is meant to be the one-decimal
value followed by the single degree sign U+00B0 and `F`, but the source's
string literal is double-encoded: the suffix is the two characters U+00C2
and U+00B0 before `F`.  Evaluated at the failing input 22 °C, the output is
"71.6Â°F", not "71.6°F". -/
theorem claim_C5 :
    degreeSuffix.data = [Char.ofNat 0xC2, Char.ofNat 0xB0, 'F'] ∧
    degreeSuffix ≠ String.mk [Char.ofNat 0xB0, 'F'] ∧
    formatFixed1 (toFahrenheit 22) ++ degreeSuffix = "71.6Â°F" ∧
    formatFixed1 (toFahrenheit 22) ++ degreeSuffix ≠ "71.6°F" := by
  refine ⟨by decide, by decide, ?_, ?_⟩
  · rw [format_at_22]
    rfl
  · rw [format_at_22]
    decide

/-- C6: whenever the station list decoded in step B is empty, the fetch
fails with `NoStationsAvailable` and the third upstream call (the
observation fetch) is never made. -/
theorem claim_C6 (p : PointsProps) (o : Option ObservationProps) :
    (GetWeatherFromNOAA ⟨some p, some [], o⟩).1 = .error .noStationsAvailable ∧
    UpstreamCall.observation ∉ (GetWeatherFromNOAA ⟨some p, some [], o⟩).2 :=
  ⟨rfl, by
    show UpstreamCall.observation ∉ [UpstreamCall.points, UpstreamCall.stations]
    decide⟩

/-- C7: whenever the observation payload carries a null temperature value,
the fetch fails with `TemperatureUnavailable`; it never succeeds (so the
null is not substituted with zero), and the model is a total function (no
crash). -/
theorem claim_C7 (p : PointsProps) (f : StationFeature)
    (fs : List StationFeature) (uc : String) :
    (GetWeatherFromNOAA ⟨some p, some (f :: fs), some ⟨none, uc⟩⟩).1
      = .error .temperatureUnavailable ∧
    ∀ st tp : String,
      (GetWeatherFromNOAA ⟨some p, some (f :: fs), some ⟨none, uc⟩⟩).1
        ≠ .ok (st, tp) :=
  ⟨rfl, fun _ _ h => Except.noConfusion h⟩

/-- C8: a GET request whose latitude parses to a value outside [-90, 90]
gets HTTP 400 "latitude must be between -90 and 90" with no upstream call;
with latitude in range and longitude outside [-180, 180] it gets HTTP 400
"longitude must be between -180 and 180"; and when both are out of range
the latitude check fires first (the first clause puts no constraint on the
longitude value, and the third clause shows it concretely). -/
theorem claim_C8 :
    (∀ (r : Request) (u : MockUpstream) (q : ℚ) (f : FP),
      r.method = "GET" →
      parseFloat r.latParam = some (.val q) →
      parseFloat r.lonParam = some f →
      q < -90 ∨ 90 < q →
      WeatherHandler r u = (.err 400 "latitude must be between -90 and 90", [])) ∧
    (∀ (r : Request) (u : MockUpstream) (p q : ℚ),
      r.method = "GET" →
      parseFloat r.latParam = some (.val p) →
      -90 ≤ p → p ≤ 90 →
      parseFloat r.lonParam = some (.val q) →
      q < -180 ∨ 180 < q →
      WeatherHandler r u = (.err 400 "longitude must be between -180 and 180", [])) ∧
    (∀ u : MockUpstream,
      WeatherHandler ⟨"GET", "91", "-181"⟩ u
        = (.err 400 "latitude must be between -90 and 90", [])) := by
  refine ⟨?_, ?_, ?_⟩
  · intro r u q f hm hlat hlon hq
    have h1 := parseFloat_ne_empty hlat
    have h2 := parseFloat_ne_empty hlon
    rcases hq with hq | hq <;>
      simp [WeatherHandler, validateRequest, hm, hlat, hlon, h1, h2, FP.lt, hq]
  · intro r u p q hm hlat hp1 hp2 hlon hq
    have h1 := parseFloat_ne_empty hlat
    have h2 := parseFloat_ne_empty hlon
    have hnp1 : ¬ p < -90 := by linarith
    have hnp2 : ¬ (90 : ℚ) < p := by linarith
    rcases hq with hq | hq <;>
      simp [WeatherHandler, validateRequest, hm, hlat, hlon, h1, h2, FP.lt,
        hnp1, hnp2, hq]
  · intro u
    have hv : validateRequest ⟨"GET", "91", "-181"⟩
        = .error (.err 400 "latitude must be between -90 and 90") := by decide
    simp [WeatherHandler, hv]

/-- C8 witness: latitude 91 is rejected with the latitude message, and
latitude 0 with longitude 181 is rejected with the longitude message. -/
theorem claim_C8_witness :
    WeatherHandler ⟨"GET", "91", "0"⟩ ⟨none, none, none⟩
        = (.err 400 "latitude must be between -90 and 90", []) ∧
    WeatherHandler ⟨"GET", "0", "181"⟩ ⟨none, none, none⟩
        = (.err 400 "longitude must be between -180 and 180", []) :=
  ⟨claim_C8.1 _ _ 91 (.val 0) rfl (by decide) (by decide) (.inr (by norm_num)),
   claim_C8.2.1 _ _ 0 181 rfl (by decide) (by norm_num) (by norm_num)
     (by decide) (.inr (by norm_num))⟩

/-- C9: every request whose method is not GET gets HTTP 405 "Method not
allowed", regardless of the query parameters, with no upstream call. -/
theorem claim_C9 (r : Request) (u : MockUpstream) (h : r.method ≠ "GET") :
    WeatherHandler r u = (.err 405 "Method not allowed", []) := by
  unfold WeatherHandler validateRequest
  rw [if_pos h]

/-- C9 witness: a POST request with well-formed coordinates is rejected
with 405 and no upstream call. -/
theorem claim_C9_witness :
    WeatherHandler ⟨"POST", "38", "-94"⟩ ⟨none, none, none⟩
      = (.err 405 "Method not allowed", []) :=
  claim_C9 _ _ (by decide)

/-- C10: the string "NaN" is accepted by ParseFloat and yields NaN; both
range comparisons against NaN are false, so a GET request with latitude
"NaN" (and likewise longitude "NaN") passes validation and reaches the
orchestrator with a NaN coordinate even though NaN is not in [-90, 90]. -/
theorem claim_C10 :
    parseFloat "NaN" = some .nan ∧
    FP.lt .nan (.val (-90)) = false ∧ FP.lt (.val 90) .nan = false ∧
    FP.lt .nan (.val (-180)) = false ∧ FP.lt (.val 180) .nan = false ∧
    validateRequest ⟨"GET", "NaN", "0"⟩ = .ok (.nan, .val 0) ∧
    validateRequest ⟨"GET", "0", "NaN"⟩ = .ok (.val 0, .nan) := by
  decide
